import Mathlib

/-!
Verification of the GoLismero audit orchestration core.

This file gives a shallow embedding, in Lean, of the parts of the
GoLismero source needed to settle the frozen claims about the audit
coordinator (`golismero/managers/auditmanager.py`), the worker bootstrap
and plugin context (`golismero/managers/processmanager.py`) and the scope
evaluator (`golismero/main/scope.py`), together with theorems settling
each claim.

Conventions of the embedding:
* Python data objects become the inductive `DataItem`; identities are
  naturals standing for the hex identity strings.
* The audit database (`golismero/database/auditdb.py` is not among the
  given sources; its operations are modelled from the spec, section 4.3)
  is a record of stored items plus the per-(item, plugin) and
  per-(item, stage) progress marks.
* Message sends become values appended to an output list; the notifier,
  the report manager and the `is_runnable_stage` test are abstracted as
  function parameters, since their net effect on the coordinator is a
  count or a boolean.
* External libraries (netaddr, ParsedURL/web_utils, DNS) are abstracted
  as oracle records, except that a concrete dotted-quad IPv4 recognizer
  is supplied where a claim needs a genuinely parsing IP string.
-/

namespace Golismero

/-! ## Data model (golismero/api/data) -/

/-- Data.TYPE_INFORMATION, TYPE_RESOURCE, TYPE_VULNERABILITY. -/
inductive DataType where
  | information
  | resource
  | vulnerability
deriving DecidableEq, BEq, Repr

/-- Resource.RESOURCE_URL. Only its distinctness matters; resource
subtypes are modelled as naturals. -/
def RESOURCE_URL : Nat := 1

/-- An audit data item: identity, kind, resource subtype, the (cached)
in-scope flag `is_in_scope()` evaluates to, and the discovery list
`discovered`.  The in-scope flag is an oracle standing for the scope
evaluation the coordinator performs through `Config.audit_scope`. -/
inductive DataItem where
  | mk (identity : Nat) (data_type : DataType) (resource_type : Nat)
       (in_scope : Bool) (discovered : List DataItem)

/-- Identity accessor. -/
def DataItem.identity : DataItem → Nat
  | .mk i _ _ _ _ => i

/-- Kind accessor (Data.data_type). -/
def DataItem.data_type : DataItem → DataType
  | .mk _ t _ _ _ => t

/-- Resource subtype accessor (Resource.resource_type). -/
def DataItem.resource_type : DataItem → Nat
  | .mk _ _ r _ _ => r

/-- Result of Data.is_in_scope(). -/
def DataItem.is_in_scope : DataItem → Bool
  | .mk _ _ _ s _ => s

/-- Discovery list accessor (Data.discovered). -/
def DataItem.discovered : DataItem → List DataItem
  | .mk _ _ _ _ d => d

/-- Total number of nodes in a forest of data items, counting every
occurrence in every discovery list.  Used as the termination measure of
the breadth-first discovery walk. -/
def node_count : List DataItem → Nat
  | [] => 0
  | .mk _ _ _ _ disc :: rest => 1 + node_count disc + node_count rest

theorem node_count_cons (i : Nat) (t : DataType) (r : Nat) (s : Bool)
    (disc rest : List DataItem) :
    node_count (DataItem.mk i t r s disc :: rest) =
      1 + node_count disc + node_count rest := by
  rw [node_count]

theorem node_count_append (a b : List DataItem) :
    node_count (a ++ b) = node_count a + node_count b := by
  induction a with
  | nil => rw [node_count]; simp
  | cons d rest ih =>
    cases d with
    | mk i t r s disc =>
      rw [List.cons_append, node_count_cons, node_count_cons, ih]
      omega

/-! ## Audit database (modelled from the spec, section 4.3) -/

/-- Membership test for the per-(item, stage) progress marks. -/
def stage_mark_contains (l : List (Nat × Nat)) (i s : Nat) : Bool :=
  l.any (fun p => p.1 == i && p.2 == s)

/-- Modelled from the spec: the audit database
(`golismero/database/auditdb.py` is not among the given sources).  It
stores at most one record per identity, a set of finished
(identity, plugin_name) pairs and a set of finished (identity, stage)
pairs, exactly the operations section 4.3 of the spec lists. -/
structure AuditDB where
  stored : List DataItem
  plugin_finished : List (Nat × String)
  stage_finished : List (Nat × Nat)

/-- An empty, fresh audit database. -/
def empty_db : AuditDB := ⟨[], [], []⟩

/-- AuditDB.has_data_key: is an item with this identity stored?  (The
source sometimes passes an optional data-type filter as a second
argument; the filter never changes the answer for the claims below and
is not modelled.) -/
def has_data_key (db : AuditDB) (i : Nat) : Bool :=
  db.stored.any (fun d => d.identity == i)

/-- AuditDB.add_data: insert, or merge when the identity already exists.
Merging never changes the key set nor any field a claim observes, so the
model keeps the first stored record. -/
def add_data (db : AuditDB) (d : DataItem) : AuditDB :=
  if has_data_key db d.identity then db
  else { db with stored := db.stored ++ [d] }

/-- AuditDB.mark_plugin_finished. -/
def mark_plugin_finished (db : AuditDB) (i : Nat) (p : String) : AuditDB :=
  { db with plugin_finished := db.plugin_finished ++ [(i, p)] }

/-- AuditDB.mark_stage_finished. -/
def mark_stage_finished (db : AuditDB) (i : Nat) (s : Nat) : AuditDB :=
  { db with stage_finished := db.stage_finished ++ [(i, s)] }

/-- Modelled from the spec: AuditDB.get_pending_data(stage) returns
every stored identity not yet marked finished at that stage. -/
def get_pending_data (db : AuditDB) (s : Nat) : List Nat :=
  (db.stored.map DataItem.identity).filter
    (fun i => !(stage_mark_contains db.stage_finished i s))

/-- AuditDB.get_data by identity (defaulting on a missing key; the
coordinator only calls it on pending identities, which are stored). -/
def get_data (db : AuditDB) (i : Nat) : DataItem :=
  match db.stored.find? (fun d => d.identity == i) with
  | some d => d
  | none => DataItem.mk 0 DataType.information 0 false []

/-! ## Messages (golismero/messaging) -/

/-- Modelled from the spec: `golismero/messaging/codes.py` is not among
the given sources; section 4.6 of the spec orders the three priorities
LOW < MEDIUM < HIGH. -/
inductive MessagePriority where
  | low
  | medium
  | high
deriving DecidableEq, BEq, Repr

/-- Numeric value of a priority, ordered as the spec orders them, so
that the source's comparison `priority >= MSG_PRIORITY_HIGH` singles out
HIGH-priority messages. -/
def MessagePriority.val : MessagePriority → Nat
  | .low => 0
  | .medium => 1
  | .high => 2

/-- MessageType constants. -/
inductive MessageType where
  | msg_type_data
  | msg_type_control
  | msg_type_status
  | msg_type_rpc
deriving DecidableEq, BEq, Repr

/-- Messages the audit coordinator sends to the orchestrator, with the
priority each send site passes (`Audit.send_msg` defaults to MEDIUM). -/
inductive AuditMsg where
  | data_msg (items : List DataItem) (priority : MessagePriority)
  | warning_msg (priority : MessagePriority)
  | ack_msg (priority : MessagePriority)
  | stop_audit_msg (finished : Bool) (priority : MessagePriority)

/-! ## Audit coordinator state (golismero/managers/auditmanager.py) -/

/-- The audit configuration fields the coordinator reads for the claims
below.  max_links is an int in the source; non-positive disables the
cap. -/
structure AuditConfig where
  max_links : Int

/-- PluginInfo: only the recursive flag is consulted by the dispatch
path under scrutiny. -/
structure PluginInfo where
  recursive : Bool

/-- The plugin manager surface the coordinator consults:
get_plugin_by_name, min_stage and max_stage. -/
structure PluginManager where
  get_plugin_by_name : String → PluginInfo
  min_stage : Nat
  max_stage : Nat

/-- The mutable per-audit state of `Audit`: the database handle plus the
followed-links counter, the one-shot warning flag, the outstanding-ACK
counter, the stage counter and the report latch. -/
structure AuditState where
  db : AuditDB
  followed_links : Nat
  show_max_links_warning : Bool
  expecting_ack : Int
  current_stage : Nat
  is_report_started : Bool

/-- Is this data object a URL resource?  (The test guarding the
followed-links counter in `Audit.__dispatch_msg`.) -/
def is_url_resource (d : DataItem) : Bool :=
  d.data_type == DataType.resource && d.resource_type == RESOURCE_URL

/-- The body shared by both exits of the per-item loop of
`Audit.__dispatch_msg` once the max-links check is passed: add the data
to the database; if in scope, run the recursive-flag test on the
producing plugin and queue the item for the plugins, otherwise mark it
finished at the last stage. -/
def admit_data (pm : PluginManager) (plugin_name : Option String)
    (d : DataItem) (st : AuditState) (dfp : List DataItem) :
    AuditState × List DataItem :=
  let db1 := add_data st.db d
  if d.is_in_scope then
    let db2 :=
      match plugin_name with
      | some p =>
        if (pm.get_plugin_by_name p).recursive then
          mark_plugin_finished db1 d.identity p
        else db1
      | none => db1
    ({ st with db := db2 }, dfp ++ [d])
  else
    ({ st with db := mark_stage_finished db1 d.identity pm.max_stage }, dfp)

/-- The per-item loop of `Audit.__dispatch_msg` (lines 638-691): for a
new URL resource the followed-links counter grows and, at or beyond the
cap, the item is skipped with a one-shot HIGH-priority warning;
otherwise the item is admitted. -/
def dispatch_loop (cfg : AuditConfig) (pm : PluginManager)
    (plugin_name : Option String) :
    List DataItem → AuditState → List DataItem → List AuditMsg →
    AuditState × List DataItem × List AuditMsg
  | [], st, dfp, msgs => (st, dfp, msgs)
  | d :: rest, st, dfp, msgs =>
    if !(has_data_key st.db d.identity) && is_url_resource d then
      let st1 := { st with followed_links := st.followed_links + 1 }
      if 0 < cfg.max_links ∧ cfg.max_links ≤ (st1.followed_links : Int) then
        if st1.show_max_links_warning then
          dispatch_loop cfg pm plugin_name rest
            { st1 with show_max_links_warning := false } dfp
            (msgs ++ [AuditMsg.warning_msg MessagePriority.high])
        else
          dispatch_loop cfg pm plugin_name rest st1 dfp msgs
      else
        let r := admit_data pm plugin_name d st1 dfp
        dispatch_loop cfg pm plugin_name rest r.1 r.2 msgs
    else
      let r := admit_data pm plugin_name d st dfp
      dispatch_loop cfg pm plugin_name rest r.1 r.2 msgs

/-- The body of the inner while-loop of the discovery walk of
`Audit.__dispatch_msg` (lines 696-709), written with an explicit fuel.
Each iteration pops the queue head; a head neither visited nor stored is
added to the database, its children are appended to the queue, and it is
either queued for the plugins (in scope) or marked finished at the last
stage (out of scope).  Every iteration strictly shrinks node_count of
the queue, so the fuel `node_count queue` that bfs_loop passes never
runs out: `bfs_run_fuel_irrelevant` and `bfs_loop_cons` below certify
that the fueled function satisfies the source loop's recurrence
exactly. -/
def bfs_run (pm : PluginManager) :
    List DataItem → Nat → List Nat → AuditDB → List DataItem →
    List Nat × AuditDB × List DataItem
  | [], _, visited, db, dfp => (visited, db, dfp)
  | _ :: _, 0, visited, db, dfp => (visited, db, dfp)
  | DataItem.mk i t r s disc :: rest, fuel + 1, visited, db, dfp =>
    let d := DataItem.mk i t r s disc
    if !(visited.contains d.identity) && !(has_data_key db d.identity) then
      let db1 := add_data db d
      let visited1 := visited ++ [d.identity]
      if d.is_in_scope then
        bfs_run pm (rest ++ disc) fuel visited1 db1 (dfp ++ [d])
      else
        bfs_run pm (rest ++ disc) fuel visited1
          (mark_stage_finished db1 d.identity pm.max_stage) dfp
    else
      bfs_run pm rest fuel visited db dfp

/-- The inner while-loop of the discovery walk: an empty queue exits at
once (the while condition), a nonempty queue runs the fueled body with
its exact fuel. -/
def bfs_loop (pm : PluginManager) (queue : List DataItem)
    (visited : List Nat) (db : AuditDB) (dfp : List DataItem) :
    List Nat × AuditDB × List DataItem :=
  match queue with
  | [] => (visited, db, dfp)
  | d :: rest => bfs_run pm (d :: rest) (node_count (d :: rest)) visited db dfp

theorem bfs_loop_eq_run (pm : PluginManager) (queue : List DataItem)
    (visited : List Nat) (db : AuditDB) (dfp : List DataItem) :
    bfs_loop pm queue visited db dfp =
      bfs_run pm queue (node_count queue) visited db dfp := by
  cases queue with
  | nil => cases h : node_count [] <;> rfl
  | cons d rest => rfl

theorem bfs_run_fuel_irrelevant (pm : PluginManager) :
    ∀ (fuel : Nat) (queue : List DataItem) (visited : List Nat)
      (db : AuditDB) (dfp : List DataItem) (fuel2 : Nat),
      node_count queue ≤ fuel → node_count queue ≤ fuel2 →
      bfs_run pm queue fuel visited db dfp = bfs_run pm queue fuel2 visited db dfp := by
  intro fuel
  induction fuel with
  | zero =>
    intro queue visited db dfp fuel2 h1 _
    cases queue with
    | nil => cases fuel2 <;> rfl
    | cons d rest =>
      cases d with
      | mk i t r s disc => rw [node_count_cons] at h1; omega
  | succ f ih =>
    intro queue visited db dfp fuel2 h1 h2
    cases queue with
    | nil => cases fuel2 <;> rfl
    | cons d rest =>
      cases d with
      | mk i t r s disc =>
        rw [node_count_cons] at h1 h2
        cases fuel2 with
        | zero => omega
        | succ f2 =>
          simp only [bfs_run]
          have hq : node_count (rest ++ disc) ≤ f := by
            rw [node_count_append]; omega
          have hq2 : node_count (rest ++ disc) ≤ f2 := by
            rw [node_count_append]; omega
          have hr : node_count rest ≤ f := by omega
          have hr2 : node_count rest ≤ f2 := by omega
          split
          · split
            · exact ih _ _ _ _ f2 hq hq2
            · exact ih _ _ _ _ f2 hq hq2
          · exact ih _ _ _ _ f2 hr hr2

/-- Unfolding equation of bfs_loop on an empty queue. -/
theorem bfs_loop_nil (pm : PluginManager) (visited : List Nat)
    (db : AuditDB) (dfp : List DataItem) :
    bfs_loop pm [] visited db dfp = (visited, db, dfp) := rfl

/-- The fueled discovery walk satisfies the recurrence of the source's
while-loop on a nonempty queue: the head is popped, a new head is
interned with its children appended to the queue, and the loop continues
on the remaining queue. -/
theorem bfs_loop_cons (pm : PluginManager) (i : Nat) (t : DataType)
    (r : Nat) (s : Bool) (disc rest : List DataItem) (visited : List Nat)
    (db : AuditDB) (dfp : List DataItem) :
    bfs_loop pm (DataItem.mk i t r s disc :: rest) visited db dfp =
      (let d := DataItem.mk i t r s disc
       if !(visited.contains d.identity) && !(has_data_key db d.identity) then
         let db1 := add_data db d
         let visited1 := visited ++ [d.identity]
         if d.is_in_scope then
           bfs_loop pm (rest ++ disc) visited1 db1 (dfp ++ [d])
         else
           bfs_loop pm (rest ++ disc) visited1
             (mark_stage_finished db1 d.identity pm.max_stage) dfp
       else
         bfs_loop pm rest visited db dfp) := by
  simp only [bfs_loop_eq_run]
  have hn : node_count (DataItem.mk i t r s disc :: rest) =
      (node_count disc + node_count rest) + 1 := by
    rw [node_count_cons]; omega
  rw [hn]
  simp only [bfs_run]
  split
  · split
    · exact bfs_run_fuel_irrelevant pm _ _ _ _ _ _
        (by rw [node_count_append]; omega) (le_refl _)
    · exact bfs_run_fuel_irrelevant pm _ _ _ _ _ _
        (by rw [node_count_append]; omega) (le_refl _)
  · exact bfs_run_fuel_irrelevant pm _ _ _ _ _ _ (by omega) (le_refl _)

/-- The outer for-loop of the discovery walk (line 696): the snapshot of
data_for_plugins seeds one inner walk per item, sharing the visited set,
the database and the growing data_for_plugins list. -/
def bfs_phase (pm : PluginManager) (snapshot : List DataItem)
    (visited : List Nat) (db : AuditDB) (dfp : List DataItem) :
    AuditDB × List DataItem :=
  match snapshot with
  | [] => (db, dfp)
  | d :: rest =>
    let r := bfs_loop pm d.discovered visited db dfp
    bfs_phase pm rest r.1 r.2.1 r.2.2

/-- Audit.__dispatch_msg for a DATA message (lines 623-724).  The
notifier is abstracted by notify_count, the number of plugins
`AuditNotifier.notify` reports having reached; the boolean result is
True when the message was sent on to the plugins.  Messages the
coordinator itself sends out are returned in order. -/
def dispatch_msg_data (cfg : AuditConfig) (pm : PluginManager)
    (plugin_name : Option String) (notify_count : List DataItem → Nat)
    (items : List DataItem) (st : AuditState) :
    AuditState × List AuditMsg × Bool :=
  let r1 := dispatch_loop cfg pm plugin_name items st [] []
  let st1 := r1.1
  let dfp := r1.2.1
  let msgs := r1.2.2
  let visited := dfp.map DataItem.identity
  let r2 := bfs_phase pm dfp visited st1.db dfp
  let st2 := { st1 with db := r2.1 }
  let dfp2 := r2.2
  if dfp2.isEmpty then (st2, msgs, false)
  else
    ({ st2 with expecting_ack := st2.expecting_ack + (notify_count dfp2 : Int) },
      msgs, true)

/-- The target-seeding tail of `Audit.run` (lines 440-460): for each
target of the scope, the target is added to the database only when
`has_data_key` already holds for it, and afterwards the first DATA
message carrying the (unfiltered) target list is sent. -/
def audit_run_seed (target_data : List DataItem) (db : AuditDB) :
    AuditDB × List AuditMsg :=
  let db1 := target_data.foldl
    (fun db d => if has_data_key db d.identity then add_data db d else db) db
  (db1, [AuditMsg.data_msg target_data MessagePriority.medium])

/-- Audit.generate_reports (lines 728-751).  report_launch abstracts
`ReportManager.generate_reports`, returning the number of expected ACKs
or raising.  The boolean result records whether the call raised: a
second invocation raises RuntimeError before touching any state, and a
raising launch still sends the LOW-priority ACK from the finally
block. -/
def generate_reports (st : AuditState) (report_launch : Except Unit Nat) :
    AuditState × List AuditMsg × Bool :=
  if st.is_report_started then (st, [], true)
  else
    let st1 := { st with expecting_ack := st.expecting_ack + 1,
                         is_report_started := true }
    match report_launch with
    | .ok n =>
      ({ st1 with expecting_ack := st1.expecting_ack + (n : Int) },
        [AuditMsg.ack_msg MessagePriority.low], false)
    | .error _ => (st1, [AuditMsg.ack_msg MessagePriority.low], true)

/-- The stage scan of `Audit.update_stage` (lines 556-587), iterating
over the stage sequence exactly as the source's for-loop over
`xrange(min_stage, max_stage + 1)` does.  An empty pending set skips to
the next stage; a pending set no plugin would accept (is_runnable_stage
false) is marked finished at that stage and skipped; otherwise the
pending data is sent as a DATA message and the scan stops.  When the
stages are exhausted, report generation is launched. -/
def scan_stages (pm : PluginManager)
    (is_runnable_stage : List DataItem → Nat → Bool)
    (report_launch : Except Unit Nat) :
    List Nat → AuditState → AuditState × List AuditMsg
  | [], st =>
    let st1 := { st with current_stage := pm.max_stage + 1 }
    let r := generate_reports st1 report_launch
    (r.1, r.2.1)
  | stage :: rest, st =>
    let st1 := { st with current_stage := stage }
    let pending := get_pending_data st1.db stage
    if pending.isEmpty then
      scan_stages pm is_runnable_stage report_launch rest st1
    else
      let datalist := pending.map (get_data st1.db)
      if is_runnable_stage datalist stage then
        (st1, [AuditMsg.data_msg datalist MessagePriority.medium])
      else
        let db1 := pending.foldl (fun db i => mark_stage_finished db i stage) st1.db
        scan_stages pm is_runnable_stage report_launch rest { st1 with db := db1 }

/-- The stage sequence of the source's `xrange(min_stage, max_stage + 1)`. -/
def stage_range (pm : PluginManager) : List Nat :=
  List.range' pm.min_stage (pm.max_stage + 1 - pm.min_stage)

/-- Audit.update_stage (lines 534-587): with the report latch set it
sends CONTROL/STOP_AUDIT; otherwise it scans the stages starting from
`pluginManager.min_stage` (not from the audit's current stage). -/
def update_stage (pm : PluginManager)
    (is_runnable_stage : List DataItem → Nat → Bool)
    (report_launch : Except Unit Nat) (st : AuditState) :
    AuditState × List AuditMsg :=
  if st.is_report_started then
    (st, [AuditMsg.stop_audit_msg true MessagePriority.medium])
  else
    scan_stages pm is_runnable_stage report_launch (stage_range pm) st

/-- Audit.acknowledge (lines 504-531): decrement the expected-ACK
counter; when it reaches exactly zero, run update_stage.  (The
notifier's own acknowledge bookkeeping has no effect on the coordinator
state and is not modelled.)  The boolean result records whether
update_stage ran. -/
def acknowledge (pm : PluginManager)
    (is_runnable_stage : List DataItem → Nat → Bool)
    (report_launch : Except Unit Nat) (st : AuditState) :
    AuditState × List AuditMsg × Bool :=
  let st1 := { st with expecting_ack := st.expecting_ack - 1 }
  if st1.expecting_ack = 0 then
    let r := update_stage pm is_runnable_stage report_launch st1
    (r.1, r.2, true)
  else (st1, [], false)

/-! ## Worker bootstrap (golismero/managers/processmanager.py) -/

/-- Messages a worker sends back through its PluginContext while running
one plugin call. -/
inductive WorkerMsg where
  | data_w (items : List DataItem) (priority : MessagePriority)
  | warning_w (priority : MessagePriority)
  | error_w (priority : MessagePriority)
  | ack_w (ack_identity : Option Nat) (priority : MessagePriority)

/-- Is this worker message the CONTROL/ACK? -/
def WorkerMsg.isAck : WorkerMsg → Bool
  | .ack_w _ _ => true
  | _ => false

/-- Modelled from the spec: TempDataStorage.on_finish
(`golismero/api/data/data.py` is not among the given sources) validates
and sanitizes a callback result, turning the None return the spec allows
for recv_info into an empty result list. -/
def on_finish : Option (List DataItem) → List DataItem
  | none => []
  | some l => l

/-- The DATA-send clause of the recv_info finally block of `_bootstrap`
(lines 184-210): resolve the input item (keyword "info", else the first
positional argument), sanitize the callback result, append the input
item, and send the list as a DATA message.  The boolean records whether
an exception is live after the block: the callback exception survives
it, and a failing input lookup raises inside the finally block itself.
The callback outcome is abstracted as an Except value. -/
def bootstrap_data_msgs (func : String) (argv : List DataItem)
    (argd : List (String × DataItem))
    (callback_result : Except Unit (Option (List DataItem))) :
    List WorkerMsg × Bool :=
  let callback_raised : Bool :=
    match callback_result with
    | .ok _ => false
    | .error _ => true
  let returned : Option (List DataItem) :=
    match callback_result with
    | .ok r => r
    | .error _ => none
  if func == "recv_info" then
    match List.lookup "info" argd with
    | some input =>
      ([WorkerMsg.data_w (on_finish returned ++ [input]) MessagePriority.medium],
        callback_raised)
    | none =>
      match argv with
      | input :: _ =>
        ([WorkerMsg.data_w (on_finish returned ++ [input]) MessagePriority.medium],
          callback_raised)
      | [] => ([], true)
  else ([], callback_raised)

/-- The ACK identity computed in the outermost finally block of
`_bootstrap` (lines 232-241): for recv_info, the identity of the first
positional argument, else of the keyword "information"; a failing lookup
is swallowed with a warning and the ACK carries no identity. -/
def bootstrap_ack_identity (func : String) (argv : List DataItem)
    (argd : List (String × DataItem)) : Option Nat :=
  if func == "recv_info" then
    match argv with
    | input :: _ => some input.identity
    | [] => (List.lookup "information" argd).map DataItem.identity
  else none

/-- The worker bootstrap `_bootstrap` (lines 137-241), as the ordered
list of messages one plugin call sends back: the recv_info DATA message
from its finally block, then the captured-warnings CONTROL/WARNING (the
has_warnings flag abstracts whether the callback emitted any), then
CONTROL/ERROR when an exception is live, then always the LOW-priority
CONTROL/ACK from the outermost finally block.  The fatal branch (a dead
parent process) kills the worker and is outside this model. -/
def bootstrap (func : String) (argv : List DataItem)
    (argd : List (String × DataItem))
    (callback_result : Except Unit (Option (List DataItem)))
    (has_warnings : Bool) : List WorkerMsg :=
  let dm := bootstrap_data_msgs func argv argd callback_result
  let warn_msgs : List WorkerMsg :=
    if has_warnings then [WorkerMsg.warning_w MessagePriority.medium] else []
  let err_msgs : List WorkerMsg :=
    if dm.2 then [WorkerMsg.error_w MessagePriority.medium] else []
  dm.1 ++ warn_msgs ++ err_msgs ++
    [WorkerMsg.ack_w (bootstrap_ack_identity func argv argd) MessagePriority.low]

/-! ## PluginContext message sending (processmanager.py, lines 341-415) -/

/-- A message as PluginContext.send_msg builds it; the payload plays no
role in the routing decision and is omitted. -/
structure BusMessage where
  message_type : MessageType
  message_code : Nat
  priority : MessagePriority
deriving DecidableEq, Repr

/-- Where a send ends up: executed inline (RPC in the orchestrator
process), dispatched synchronously (HIGH priority in the orchestrator
process), or placed on the message queue. -/
inductive SendOutcome where
  | inline_rpc
  | sync_dispatch (m : BusMessage)
  | enqueued (m : BusMessage)
deriving DecidableEq, Repr

/-- PluginContext.send_raw_msg (lines 394-415): a HIGH-priority message
sent from the orchestrator process itself skips the queue and is
dispatched now; everything else is enqueued. -/
def send_raw_msg (orchestrator_pid current_pid : Nat) (m : BusMessage) :
    SendOutcome :=
  if MessagePriority.high.val ≤ m.priority.val ∧ orchestrator_pid = current_pid then
    SendOutcome.sync_dispatch m
  else SendOutcome.enqueued m

/-- PluginContext.send_msg (lines 355-390): an RPC message sent from the
orchestrator process itself is executed inline to avoid self-deadlock;
any other message is built and handed to send_raw_msg. -/
def send_msg (orchestrator_pid current_pid : Nat) (t : MessageType)
    (code : Nat) (priority : MessagePriority) : SendOutcome :=
  if t = MessageType.msg_type_rpc ∧ orchestrator_pid = current_pid then
    SendOutcome.inline_rpc
  else send_raw_msg orchestrator_pid current_pid ⟨t, code, priority⟩

/-- PluginContext.send_ack (lines 341-351) sends CONTROL/ACK at LOW
priority through send_msg. -/
def send_ack (orchestrator_pid current_pid : Nat) : SendOutcome :=
  send_msg orchestrator_pid current_pid MessageType.msg_type_control 0
    MessagePriority.low

/-! ## Scope evaluator (golismero/main/scope.py) -/

/-- Python str.lower for one character, on the ASCII range target
strings live in. -/
def char_lower (c : Char) : Char :=
  if c.isUpper then Char.ofNat (c.toNat + 32) else c

/-- Python str.lower (targets and hostnames are ASCII). -/
def str_lower (s : String) : String := String.mk (s.data.map char_lower)

/-- Python str.startswith. -/
def str_startswith (s pre : String) : Bool := pre.data.isPrefixOf s.data

/-- Python str.endswith. -/
def str_endswith (s suf : String) : Bool := suf.data.isSuffixOf s.data

/-- One character class of the domain regex: ASCII letters and digits. -/
def is_alnum (c : Char) : Bool := c.isAlpha || c.isDigit

/-- The middle-or-final character class of the domain regex. -/
def is_domain_char (c : Char) : Bool :=
  is_alnum c || c == Char.ofNat 95 || c == Char.ofNat 45 || c == Char.ofNat 46

/-- Matches the tail of the domain regex: zero or more characters of
the middle class followed by one final alphanumeric character. -/
def domain_tail : List Char → Bool
  | [] => false
  | [c] => is_alnum c
  | c :: rest => is_domain_char c && domain_tail rest

/-- The whole-string reading of the domain regex
`[A-Za-z0-9][A-Za-z0-9_\-.]*[A-Za-z0-9]`. -/
def domain_core : List Char → Bool
  | [] => false
  | c :: rest => is_alnum c && domain_tail rest

/-- AuditScope._re_is_domain.match: the anchored Python regex
`^[A-Za-z0-9][A-Za-z0-9_\-.]*[A-Za-z0-9]$`, where a `$` also matches
just before one trailing newline. -/
def re_is_domain_match (s : String) : Bool :=
  domain_core s.data ||
    (s.data.getLast? == some (Char.ofNat 10) && domain_core s.data.dropLast)

/-- Set-style insertion, mirroring set.add on the scope's Python sets
(domains, addresses, web_pages are sets; only membership is observed by
the claims, so insertion order carries no meaning). -/
def set_add (l : List String) (x : String) : List String :=
  if l.contains x then l else l ++ [x]

/-- Oracles for the external libraries the scope evaluator calls:
netaddr.IPAddress (with and without version=6), netaddr.IPNetwork
(returning the host enumeration as strings) and web_utils.ParsedURL
(returning the normalized URL and the extracted host).  These libraries
are external collaborators of the repository and are abstracted. -/
structure NetOracles where
  is_ipv6 : String → Bool
  is_ip : String → Bool
  net_hosts : String → Option (List String)
  parse_url : String → Option (String × String)

/-- Splits a character list at every dot, for the dotted-quad
recognizer below. -/
def split_dots : List Char → List (List Char)
  | [] => [[]]
  | c :: rest =>
    if c == Char.ofNat 46 then [] :: split_dots rest
    else
      match split_dots rest with
      | g :: gs => (c :: g) :: gs
      | [] => [[c]]

/-- A dotted-quad IPv4 recognizer: a concrete instance of an input
netaddr.IPAddress accepts, for claims that need a target string that
genuinely parses as a raw IP address. -/
def is_ipv4 (s : String) : Bool :=
  let parts := split_dots s.data
  parts.length == 4 &&
    parts.all (fun p =>
      decide (0 < p.length) && p.all Char.isDigit &&
        decide (p.foldl (fun n c => n * 10 + (c.toNat - 48)) 0 ≤ 255))

/-- The string between the brackets of a `[...]` IPv6 literal
(Python target[1:-1]). -/
def strip_brackets (t : String) : String :=
  String.mk ((t.data.drop 1).dropLast)

/-- The bracketed-IPv6-then-raw-IP acceptance test that appears both in
add_targets (lines 128-135) and in the membership test (lines 310-317):
the accepted address string, or none. -/
def ip_accept (o : NetOracles) (t : String) : Option String :=
  if str_startswith t "[" && str_endswith t "]" then
    if o.is_ipv6 (strip_brackets t) then some (strip_brackets t) else none
  else if o.is_ip t then some t else none

/-- The scope's parsed-target sets (AuditScope.__domains, __roots,
__addresses, __web_pages) plus the new_domains set add_targets tracks
for DNS resolution. -/
structure ScopeState where
  domains : List String
  roots : List String
  addresses : List String
  web_pages : List String
  new_domains : List String

/-- A scope with nothing recorded yet. -/
def scope_init : ScopeState := ⟨[], [], [], [], []⟩

/-- One step of the CIDR branch of add_targets (lines 154-162): record
one enumerated host address and its synthetic URL. -/
def add_host (st : ScopeState) (a : String) : ScopeState :=
  { st with addresses := set_add st.addresses a,
            web_pages := set_add st.web_pages ("http://" ++ a ++ "/") }

/-- The per-target classification of AuditScope.add_targets (lines
106-189), exactly in the source's order: first the domain regex, then
bracketed IPv6 / raw IP, then CIDR network, then URL; a target matching
none of them is silently skipped by this loop. -/
def add_targets_one (o : NetOracles) (st : ScopeState) (target : String) :
    ScopeState :=
  if re_is_domain_match target then
    let t := str_lower target
    if st.domains.contains t then st
    else
      { st with domains := st.domains ++ [t],
                new_domains := st.new_domains ++ [t],
                web_pages := set_add st.web_pages ("http://" ++ t ++ "/") }
  else
    match ip_accept o target with
    | some a =>
      { st with addresses := set_add st.addresses a,
                web_pages := set_add st.web_pages ("http://" ++ a ++ "/") }
    | none =>
      match o.net_hosts target with
      | some hosts => hosts.foldl add_host st
      | none =>
        match o.parse_url target with
        | some (url, host) =>
          let st1 := { st with web_pages := set_add st.web_pages url }
          match ip_accept o host with
          | some a => { st1 with addresses := set_add st1.addresses a }
          | none =>
            let h := str_lower host
            if st1.domains.contains h then st1
            else
              { st1 with domains := st1.domains ++ [h],
                         new_domains := st1.new_domains ++ [h] }
        | none => st

/-- The target classification loop of AuditScope.add_targets over the
configured target list.  (The later subdomain-root expansion and DNS
resolution phases, lines 191-228, follow this loop and leave the
classification of each target unchanged; no claim below touches them.) -/
def add_targets (o : NetOracles) (targets : List String) : ScopeState :=
  targets.foldl (add_targets_one o) scope_init

/-- The classification attempts AuditScope.__contains__ makes, in
source order, recorded for the trace the membership model returns. -/
inductive ScopeStep where
  | step_url
  | step_ip
  | step_domain
deriving DecidableEq, Repr

/-- AuditScope.__contains__ (lines 274-344), instrumented with the list
of classification attempts made: an empty (falsy) target returns False
at once; otherwise the target is tried as a URL (extracting the host),
then as an IP address, then against the domain regex, and an
unclassifiable target warns (second result component) and returns
False. -/
def scope_contains (sc : ScopeState) (o : NetOracles) (target : String) :
    Bool × Bool × List ScopeStep :=
  if target.isEmpty then (false, false, [])
  else
    let t :=
      match o.parse_url target with
      | some hu => hu.2
      | none => target
    match ip_accept o t with
    | some a =>
      (sc.addresses.contains a, false, [ScopeStep.step_url, ScopeStep.step_ip])
    | none =>
      if re_is_domain_match t then
        let tl := str_lower t
        ((sc.domains.contains tl ||
            sc.roots.any (fun r => str_endswith tl ("." ++ r))), false,
          [ScopeStep.step_url, ScopeStep.step_ip, ScopeStep.step_domain])
      else
        (false, true,
          [ScopeStep.step_url, ScopeStep.step_ip, ScopeStep.step_domain])

/-! ## Concrete instances used by the claim theorems -/

/-- A plugin manager whose every plugin is non-recursive. -/
def pm_nonrecursive : PluginManager := ⟨fun _ => ⟨false⟩, 0, 3⟩

/-- A plugin manager whose every plugin is recursive. -/
def pm_recursive : PluginManager := ⟨fun _ => ⟨true⟩, 0, 3⟩

/-- An audit configuration with the max-links cap disabled. -/
def cfg_unbounded : AuditConfig := ⟨0⟩

/-- An audit configuration with max_links = 2. -/
def cfg_two_links : AuditConfig := ⟨2⟩

/-- A notifier count: every item reaches one plugin. -/
def notify_each : List DataItem → Nat := fun l => l.length

/-- One plain in-scope data item. -/
def item1 : DataItem := DataItem.mk 1 DataType.information 0 true []

/-- A fresh audit state over an empty database, as `Audit.__init__`
leaves it (one-shot warning armed, no expected ACKs, first stage). -/
def audit_state0 : AuditState := ⟨empty_db, 0, true, 0, 0, false⟩

/-- A distinct in-scope URL resource per index. -/
def url_item (k : Nat) : DataItem :=
  DataItem.mk k DataType.resource RESOURCE_URL true []

/-- Ten distinct fresh URL resources, as returned by one plugin call. -/
def ten_urls : List DataItem := (List.range 10).map (fun k => url_item (k + 1))

/-! ## Claim C1 -/

/-- C1: the spec (and the source's own comment at auditmanager.py line
677) says the producing plugin is marked finished for an in-scope item
exactly when the plugin is non-recursive.  The code tests
`if plugin_info.recursive:` instead: dispatching one in-scope item named
by a non-recursive plugin leaves the (identity, plugin) pair unmarked
even though the item was admitted and sent on, while the same dispatch
under a recursive plugin marks the pair.  This evaluates the code at the
failing input and exhibits the inversion. -/
theorem C1_plugin_finished_marking_inverted :
    (dispatch_msg_data cfg_unbounded pm_nonrecursive (some "p") notify_each
        [item1] audit_state0).1.db.plugin_finished = []
    ∧ (dispatch_msg_data cfg_unbounded pm_nonrecursive (some "p") notify_each
        [item1] audit_state0).2.2 = true
    ∧ (dispatch_msg_data cfg_unbounded pm_recursive (some "p") notify_each
        [item1] audit_state0).1.db.plugin_finished = [(1, "p")] :=
  ⟨rfl, rfl, rfl⟩

/-! ## Claim C2 -/

/-- A target item as the scope produces it (a synthetic URL). -/
def target_url7 : DataItem := DataItem.mk 7 DataType.resource RESOURCE_URL true []

/-- C2: the target-seeding tail of `Audit.run` adds a target to the
database only when `has_data_key` already holds (the source's comment
says "only if they're new", but the condition is not negated), so over a
fresh empty database no target at all is interned, and the first DATA
message is emitted carrying targets absent from the database.  This
evaluates the code at the failing input. -/
theorem C2_fresh_targets_never_interned :
    (audit_run_seed [target_url7] empty_db).1 = empty_db
    ∧ (audit_run_seed [target_url7] empty_db).2
        = [AuditMsg.data_msg [target_url7] MessagePriority.medium] :=
  ⟨rfl, rfl⟩

/-! ## Claim C3 -/

/-- Neither branch of admit_data touches the one-shot warning flag. -/
theorem admit_data_show_flag (pm : PluginManager) (pn : Option String)
    (d : DataItem) (st : AuditState) (dfp : List DataItem) :
    (admit_data pm pn d st dfp).1.show_max_links_warning
      = st.show_max_links_warning := by
  simp only [admit_data]
  split <;> rfl

/-- Once the one-shot warning flag is cleared, the per-item loop of
`Audit.__dispatch_msg` emits no further message and leaves the flag
cleared. -/
theorem dispatch_loop_flag_false (cfg : AuditConfig) (pm : PluginManager)
    (pn : Option String) :
    ∀ (items : List DataItem) (st : AuditState) (dfp : List DataItem)
      (msgs : List AuditMsg),
      st.show_max_links_warning = false →
      (dispatch_loop cfg pm pn items st dfp msgs).2.2 = msgs
      ∧ (dispatch_loop cfg pm pn items st dfp msgs).1.show_max_links_warning
          = false := by
  intro items
  induction items with
  | nil => intro st dfp msgs h; exact ⟨rfl, h⟩
  | cons d rest ih =>
    intro st dfp msgs h
    simp only [dispatch_loop]
    split
    · split
      · split
        · rename_i hflag
          have : ({ st with followed_links := st.followed_links + 1 }
              : AuditState).show_max_links_warning = false := h
          rw [this] at hflag
          cases hflag
        · exact ih _ _ _ h
      · refine ih _ _ _ ?_
        rw [admit_data_show_flag]
        exact h
    · refine ih _ _ _ ?_
      rw [admit_data_show_flag]
      exact h

/-- Once the one-shot warning flag is cleared, a whole DATA dispatch
emits no message at all and leaves the flag cleared. -/
theorem dispatch_no_second_warning (cfg : AuditConfig) (pm : PluginManager)
    (pn : Option String) (nc : List DataItem → Nat) (items : List DataItem)
    (st : AuditState) (h : st.show_max_links_warning = false) :
    (dispatch_msg_data cfg pm pn nc items st).2.1 = []
    ∧ (dispatch_msg_data cfg pm pn nc items st).1.show_max_links_warning
        = false := by
  have hl := dispatch_loop_flag_false cfg pm pn items st [] [] h
  simp only [dispatch_msg_data]
  split
  · exact ⟨hl.1, hl.2⟩
  · exact ⟨hl.1, hl.2⟩

/-- C3 counterexample: with max_links = 2 and ten distinct fresh URL
resources in one DATA dispatch, the database does not receive 2 URL
resources (it receives exactly 1: the counter is incremented before the
check and the comparison is `>=`, so the second URL already trips the
cap and is dropped). -/
theorem C3_counterexample_not_two_admitted :
    ¬ ((dispatch_msg_data cfg_two_links pm_nonrecursive (some "p") notify_each
        ten_urls audit_state0).1.db.stored.length = 2) := by
  intro hcontra
  have hone : (dispatch_msg_data cfg_two_links pm_nonrecursive (some "p")
      notify_each ten_urls audit_state0).1.db.stored.length = 1 := rfl
  rw [hone] at hcontra
  cases hcontra

/-- C3 amended: with max_links = 2 and ten distinct fresh URL resources
in one call, dispatch admits exactly one URL resource (the first), emits
exactly one HIGH-priority CONTROL/WARNING about the cap, clears the
one-shot flag, and no later dispatch of the audit (its flag now cleared)
ever emits another message. -/
theorem C3_max_links_throttle :
    ((dispatch_msg_data cfg_two_links pm_nonrecursive (some "p") notify_each
        ten_urls audit_state0).1.db.stored.map DataItem.identity = [1])
    ∧ ((dispatch_msg_data cfg_two_links pm_nonrecursive (some "p") notify_each
        ten_urls audit_state0).2.1 = [AuditMsg.warning_msg MessagePriority.high])
    ∧ ((dispatch_msg_data cfg_two_links pm_nonrecursive (some "p") notify_each
        ten_urls audit_state0).1.show_max_links_warning = false)
    ∧ (∀ (cfg : AuditConfig) (pm : PluginManager) (pn : Option String)
         (nc : List DataItem → Nat) (items : List DataItem) (st : AuditState),
         st.show_max_links_warning = false →
         (dispatch_msg_data cfg pm pn nc items st).2.1 = []
         ∧ (dispatch_msg_data cfg pm pn nc items st).1.show_max_links_warning
             = false) :=
  ⟨rfl, rfl, rfl, fun cfg pm pn nc items st h =>
    dispatch_no_second_warning cfg pm pn nc items st h⟩

/-- A later-dispatch state: the warning already shown, more URLs coming. -/
def audit_state_warned : AuditState := ⟨empty_db, 10, false, 0, 0, false⟩

/-- C3 witness: the general no-second-warning clause applied at a
concrete later dispatch. -/
theorem C3_max_links_throttle_witness :
    (dispatch_msg_data cfg_two_links pm_nonrecursive (some "p") notify_each
      [url_item 11] audit_state_warned).2.1 = [] :=
  (C3_max_links_throttle.2.2.2 cfg_two_links pm_nonrecursive (some "p")
    notify_each [url_item 11] audit_state_warned rfl).1

/-! ## Claim C6 -/

/-- The recv_info DATA-send clause never emits an ACK. -/
theorem bootstrap_data_msgs_no_ack (func : String) (argv : List DataItem)
    (argd : List (String × DataItem))
    (cb : Except Unit (Option (List DataItem))) :
    ((bootstrap_data_msgs func argv argd cb).1.filter WorkerMsg.isAck) = [] := by
  simp only [bootstrap_data_msgs]
  repeat' split
  all_goals simp [WorkerMsg.isAck]

/-- C6: every plugin call run by the worker bootstrap sends exactly one
CONTROL/ACK, at LOW priority, as the very last message of the call
(hence after any DATA message of the same call), whatever the callback
outcome, raising included; and a recv_info call with its input passed
positionally (as AuditNotifier.__run_plugin passes it) acknowledges with
the input item's identity. -/
theorem C6_worker_ack_discipline (func : String) (argv : List DataItem)
    (argd : List (String × DataItem)) (cb : Except Unit (Option (List DataItem)))
    (w : Bool) :
    ((bootstrap func argv argd cb w).filter WorkerMsg.isAck).length = 1
    ∧ (∃ pre, bootstrap func argv argd cb w
          = pre ++ [WorkerMsg.ack_w (bootstrap_ack_identity func argv argd)
              MessagePriority.low]
        ∧ pre.filter WorkerMsg.isAck = [])
    ∧ (∀ (d : DataItem) (rest : List DataItem),
        func = "recv_info" → argv = d :: rest →
        bootstrap_ack_identity func argv argd = some d.identity) := by
  refine ⟨?_, ⟨(bootstrap_data_msgs func argv argd cb).1
      ++ (if w then [WorkerMsg.warning_w MessagePriority.medium] else [])
      ++ (if (bootstrap_data_msgs func argv argd cb).2 then
            [WorkerMsg.error_w MessagePriority.medium] else []), ?_, ?_⟩, ?_⟩
  · simp only [bootstrap, List.filter_append, List.length_append,
      bootstrap_data_msgs_no_ack]
    split <;> split <;> simp [WorkerMsg.isAck]
  · simp [bootstrap]
  · simp only [List.filter_append, bootstrap_data_msgs_no_ack]
    split <;> split <;> simp [WorkerMsg.isAck]
  · intro d rest hf ha
    subst hf; subst ha
    rfl

/-- C6 witness: a crashing recv_info call on a concrete input still ends
in exactly one LOW-priority ACK carrying the input identity. -/
theorem C6_worker_ack_discipline_witness :
    ((bootstrap "recv_info" [item1] [] (Except.error ()) false).filter
        WorkerMsg.isAck).length = 1
    ∧ bootstrap_ack_identity "recv_info" [item1] [] = some 1 :=
  ⟨(C6_worker_ack_discipline "recv_info" [item1] [] (Except.error ()) false).1,
    (C6_worker_ack_discipline "recv_info" [item1] [] (Except.error ()) false).2.2
      item1 [] rfl rfl⟩

/-! ## Claim C9 -/

/-- C9: whether the recv_info callback returned a list, returned None or
raised, the input item (keyword "info", else the first positional
argument) is appended to the sanitized result list, so the DATA message
sent back is non-empty and contains the input item. -/
theorem C9_recv_info_data_contains_input (argv : List DataItem)
    (argd : List (String × DataItem))
    (cb : Except Unit (Option (List DataItem))) (w : Bool) (d : DataItem)
    (h : List.lookup "info" argd = some d
        ∨ (List.lookup "info" argd = none ∧ argv.head? = some d)) :
    ∃ items,
      WorkerMsg.data_w items MessagePriority.medium
          ∈ bootstrap "recv_info" argv argd cb w
      ∧ d ∈ items ∧ items ≠ [] := by
  refine ⟨on_finish (match cb with | .ok r => r | .error _ => none) ++ [d],
    ?_, List.mem_append_right _ (List.mem_singleton.mpr rfl), by simp⟩
  have hstr : (("recv_info" : String) == "recv_info") = true := rfl
  rcases h with h | ⟨h1, h2⟩
  · simp [bootstrap, bootstrap_data_msgs, hstr, h]
  · cases argv with
    | nil => cases h2
    | cons a rest =>
      have had : a = d := by
        simp only [List.head?] at h2
        exact Option.some.inj h2
      subst had
      simp [bootstrap, bootstrap_data_msgs, hstr, h1]

/-- An input item for the worker witnesses. -/
def witness_item : DataItem := DataItem.mk 42 DataType.information 0 true []

/-- C9 witness: a raising callback on a concrete positional input still
sends a DATA message containing that input. -/
theorem C9_recv_info_data_contains_input_witness :
    ∃ items,
      WorkerMsg.data_w items MessagePriority.medium
          ∈ bootstrap "recv_info" [witness_item] [] (Except.error ()) false
      ∧ witness_item ∈ items ∧ items ≠ [] :=
  C9_recv_info_data_contains_input [witness_item] [] (Except.error ()) false
    witness_item (Or.inr ⟨rfl, rfl⟩)

/-! ## Claim C7 -/

/-- An is_runnable_stage test that accepts everything. -/
def always_runnable : List DataItem → Nat → Bool := fun _ _ => true

/-- C7: a second generate_reports invocation raises (RuntimeError)
before touching any state, so the latch stays set and no message is
sent; a first invocation sends exactly one LOW-priority CONTROL/ACK from
its finally block and sets the latch, even when launching the report
plugins raises; and once the report stage drains (an ACK brings the
counter to zero with the latch set), the coordinator emits
CONTROL/STOP_AUDIT. -/
theorem C7_report_latch_ack_stop (st : AuditState) (l : Except Unit Nat)
    (pm : PluginManager) (ir : List DataItem → Nat → Bool) :
    (st.is_report_started = true → generate_reports st l = (st, [], true))
    ∧ (st.is_report_started = false →
        (generate_reports st l).2.1 = [AuditMsg.ack_msg MessagePriority.low]
        ∧ (generate_reports st l).1.is_report_started = true)
    ∧ (st.is_report_started = true →
        update_stage pm ir l st
          = (st, [AuditMsg.stop_audit_msg true MessagePriority.medium]))
    ∧ (st.is_report_started = true → st.expecting_ack = 1 →
        (acknowledge pm ir l st).2.1
          = [AuditMsg.stop_audit_msg true MessagePriority.medium]) := by
  refine ⟨?_, ?_, ?_, ?_⟩
  · intro h; simp [generate_reports, h]
  · intro h
    cases l <;> simp [generate_reports, h]
  · intro h; simp [update_stage, h]
  · intro h h2
    simp [acknowledge, update_stage, h, h2]

/-- A state whose report stage is running with one outstanding ACK. -/
def st_report_running : AuditState := ⟨empty_db, 0, true, 1, 4, true⟩

/-- C7 witness: the final ACK of the report stage triggers STOP_AUDIT at
a concrete state; a second generate_reports call there raises without
sending anything. -/
theorem C7_report_latch_ack_stop_witness :
    (acknowledge pm_nonrecursive always_runnable (Except.ok 0)
        st_report_running).2.1
      = [AuditMsg.stop_audit_msg true MessagePriority.medium]
    ∧ generate_reports st_report_running (Except.ok 0)
        = (st_report_running, [], true) :=
  ⟨(C7_report_latch_ack_stop st_report_running (Except.ok 0) pm_nonrecursive
      always_runnable).2.2.2 rfl rfl,
    (C7_report_latch_ack_stop st_report_running (Except.ok 0) pm_nonrecursive
      always_runnable).1 rfl⟩

/-! ## Claim C8 -/

/-- C8: from the orchestrator process itself an RPC message is executed
inline and a HIGH-priority message is dispatched synchronously; from any
other process every message, RPC and HIGH-priority included, is placed
on the message queue. -/
theorem C8_send_msg_routing (orch cur : Nat) (t : MessageType) (code : Nat)
    (p : MessagePriority) :
    (cur = orch →
      send_msg orch cur MessageType.msg_type_rpc code p = SendOutcome.inline_rpc)
    ∧ (cur = orch → t ≠ MessageType.msg_type_rpc →
        send_msg orch cur t code MessagePriority.high
          = SendOutcome.sync_dispatch ⟨t, code, MessagePriority.high⟩)
    ∧ (cur ≠ orch →
        send_msg orch cur t code p = SendOutcome.enqueued ⟨t, code, p⟩) := by
  refine ⟨?_, ?_, ?_⟩
  · intro h; subst h; simp [send_msg]
  · intro h ht; subst h
    simp [send_msg, ht, send_raw_msg, MessagePriority.val]
  · intro h
    have hne : orch ≠ cur := fun hh => h hh.symm
    simp [send_msg, send_raw_msg, hne]

/-- C8 witness: concrete sends from the orchestrator process (pid 7) and
from a worker process (pid 8). -/
theorem C8_send_msg_routing_witness :
    send_msg 7 7 MessageType.msg_type_rpc 3 MessagePriority.medium
      = SendOutcome.inline_rpc
    ∧ send_msg 7 7 MessageType.msg_type_control 3 MessagePriority.high
      = SendOutcome.sync_dispatch
          ⟨MessageType.msg_type_control, 3, MessagePriority.high⟩
    ∧ send_msg 7 8 MessageType.msg_type_rpc 3 MessagePriority.medium
      = SendOutcome.enqueued
          ⟨MessageType.msg_type_rpc, 3, MessagePriority.medium⟩ :=
  ⟨(C8_send_msg_routing 7 7 MessageType.msg_type_control 3
      MessagePriority.medium).1 rfl,
    (C8_send_msg_routing 7 7 MessageType.msg_type_control 3
      MessagePriority.medium).2.1 rfl (by intro hh; cases hh),
    (C8_send_msg_routing 7 8 MessageType.msg_type_rpc 3
      MessagePriority.medium).2.2 (by intro hh; cases hh)⟩

/-! ## Claim C10 -/

/-- C10: an empty (falsy) target string makes AuditScope.__contains__
return False at once: no URL, IP or domain classification is attempted
and no out-of-scope warning is emitted, for every scope state and every
behavior of the external parsing libraries. -/
theorem C10_empty_target_short_circuit (sc : ScopeState) (o : NetOracles) :
    scope_contains sc o "" = (false, false, []) := rfl

/-! ## Claim C4 -/

theorem mem_set_add_self (l : List String) (x : String) : x ∈ set_add l x := by
  unfold set_add
  split <;> simp_all

theorem mem_set_add_of_mem (l : List String) (x y : String) (h : y ∈ l) :
    y ∈ set_add l x := by
  unfold set_add
  split <;> simp_all

theorem add_host_fold_domains (hosts : List String) (st : ScopeState) :
    (hosts.foldl add_host st).domains = st.domains := by
  induction hosts generalizing st with
  | nil => rfl
  | cons a rest ih => rw [List.foldl_cons, ih]; rfl

theorem mem_addresses_fold (hosts : List String) (st : ScopeState) (y : String)
    (h : y ∈ st.addresses) : y ∈ (hosts.foldl add_host st).addresses := by
  induction hosts generalizing st with
  | nil => exact h
  | cons a rest ih =>
    rw [List.foldl_cons]
    exact ih _ (mem_set_add_of_mem _ _ _ h)

theorem mem_hosts_fold (hosts : List String) (st : ScopeState) (a : String)
    (h : a ∈ hosts) : a ∈ (hosts.foldl add_host st).addresses := by
  induction hosts generalizing st with
  | nil => cases h
  | cons b rest ih =>
    rw [List.foldl_cons]
    rcases List.mem_cons.mp h with rfl | hmem
    · exact mem_addresses_fold _ _ _ (mem_set_add_self _ _)
    · exact ih _ hmem

/-- Oracles under which only raw IPv4 dotted-quads parse as addresses:
the model of netaddr for a target like 1.2.3.4. -/
def oracles_ip_only : NetOracles :=
  ⟨fun _ => false, is_ipv4, fun _ => none, fun _ => none⟩

/-- C4 counterexample: the target 1.2.3.4 genuinely parses as a raw
IPv4 address, yet add_targets records it as a domain target (with its
synthetic URL) and not as an IP-address target, because the domain regex
is tried first and dotted-quads match it. -/
theorem C4_raw_ip_recorded_as_domain :
    is_ipv4 "1.2.3.4" = true
    ∧ (add_targets oracles_ip_only ["1.2.3.4"]).domains = ["1.2.3.4"]
    ∧ (add_targets oracles_ip_only ["1.2.3.4"]).addresses = []
    ∧ (add_targets oracles_ip_only ["1.2.3.4"]).web_pages = ["http://1.2.3.4/"] :=
  ⟨rfl, rfl, rfl, rfl⟩

/-- C4 amended: target classification in add_targets tries the domain
regex first, and only targets failing it go on, in order, to bracketed
IPv6 / raw IP, then CIDR network, then URL; in particular a target
matching the domain regex (raw IPv4 dotted-quads included) is recorded
as a domain with a synthetic http URL and never as an IP address. -/
theorem C4_classification_order (o : NetOracles) (st : ScopeState) (t : String) :
    (re_is_domain_match t = true →
      (add_targets_one o st t).addresses = st.addresses
      ∧ str_lower t ∈ (add_targets_one o st t).domains
      ∧ (st.domains.contains (str_lower t) = false →
          ("http://" ++ str_lower t ++ "/") ∈ (add_targets_one o st t).web_pages))
    ∧ (∀ a, re_is_domain_match t = false → ip_accept o t = some a →
        (add_targets_one o st t).addresses = set_add st.addresses a
        ∧ (add_targets_one o st t).web_pages
            = set_add st.web_pages ("http://" ++ a ++ "/")
        ∧ (add_targets_one o st t).domains = st.domains)
    ∧ (∀ hosts, re_is_domain_match t = false → ip_accept o t = none →
        o.net_hosts t = some hosts →
        (add_targets_one o st t).domains = st.domains
        ∧ ∀ a ∈ hosts, a ∈ (add_targets_one o st t).addresses)
    ∧ (∀ url host, re_is_domain_match t = false → ip_accept o t = none →
        o.net_hosts t = none → o.parse_url t = some (url, host) →
        url ∈ (add_targets_one o st t).web_pages) := by
  refine ⟨?_, ?_, ?_, ?_⟩
  · intro hd
    by_cases hc : st.domains.contains (str_lower t) = true
    · have he : add_targets_one o st t = st := by
        simp only [add_targets_one]
        rw [if_pos hd, if_pos hc]
      rw [he]
      refine ⟨rfl, by simpa using hc, ?_⟩
      intro hfalse
      rw [hc] at hfalse
      cases hfalse
    · have he : add_targets_one o st t =
          { st with domains := st.domains ++ [str_lower t],
                    new_domains := st.new_domains ++ [str_lower t],
                    web_pages := set_add st.web_pages
                      ("http://" ++ str_lower t ++ "/") } := by
        simp only [add_targets_one]
        rw [if_pos hd, if_neg hc]
      rw [he]
      exact ⟨rfl, by simp, fun _ => mem_set_add_self _ _⟩
  · intro a hd hip
    have hd2 : ¬(re_is_domain_match t = true) := by rw [hd]; simp
    have he : add_targets_one o st t =
        { st with addresses := set_add st.addresses a,
                  web_pages := set_add st.web_pages ("http://" ++ a ++ "/") } := by
      simp only [add_targets_one]
      rw [if_neg hd2, hip]
    rw [he]
    exact ⟨rfl, rfl, rfl⟩
  · intro hosts hd hip hnet
    have hd2 : ¬(re_is_domain_match t = true) := by rw [hd]; simp
    have he : add_targets_one o st t = hosts.foldl add_host st := by
      simp only [add_targets_one]
      rw [if_neg hd2, hip, hnet]
    rw [he]
    exact ⟨add_host_fold_domains _ _, fun a ha => mem_hosts_fold _ _ _ ha⟩
  · intro url host hd hip hnet hurl
    have hd2 : ¬(re_is_domain_match t = true) := by rw [hd]; simp
    simp only [add_targets_one]
    rw [if_neg hd2, hip, hnet, hurl]
    dsimp only
    split
    · exact mem_set_add_self _ _
    · split
      · exact mem_set_add_self _ _
      · exact mem_set_add_self _ _

/-- Oracles recognizing the bracketed IPv6 literal used in the C4
witness. -/
def oracles_v6 : NetOracles :=
  ⟨fun s => s == "::1", fun _ => false, fun _ => none, fun _ => none⟩

/-- C4 witness: concrete classifications through the proved branch
order: a bracketed IPv6 literal lands in the addresses set, and the raw
IPv4 dotted-quad (which matches the domain regex) lands in the domains
set. -/
theorem C4_classification_order_witness :
    (add_targets_one oracles_v6 scope_init "[::1]").addresses = ["::1"]
    ∧ str_lower "1.2.3.4"
        ∈ (add_targets_one oracles_ip_only scope_init "1.2.3.4").domains :=
  ⟨((C4_classification_order oracles_v6 scope_init "[::1]").2.1 "::1"
      rfl rfl).1,
    ((C4_classification_order oracles_ip_only scope_init "1.2.3.4").1 rfl).2.1⟩

/-! ## Claim C5 -/

theorem get_pending_mark_ne (db : AuditDB) (i s σ : Nat) (h : σ ≠ s) :
    get_pending_data (mark_stage_finished db i s) σ = get_pending_data db σ := by
  show (db.stored.map DataItem.identity).filter
      (fun j => !(stage_mark_contains (db.stage_finished ++ [(i, s)]) j σ))
    = (db.stored.map DataItem.identity).filter
      (fun j => !(stage_mark_contains db.stage_finished j σ))
  apply List.filter_congr
  intro j _
  unfold stage_mark_contains
  rw [List.any_append]
  have h2 : (s == σ) = false := beq_eq_false_iff_ne.mpr (fun hh => h hh.symm)
  simp [h2]

theorem fold_mark_stored (ids : List Nat) (db : AuditDB) (s : Nat) :
    (ids.foldl (fun db i => mark_stage_finished db i s) db).stored = db.stored := by
  induction ids generalizing db with
  | nil => rfl
  | cons j rest ih => rw [List.foldl_cons, ih]; rfl

theorem get_data_fold_mark (ids : List Nat) (db : AuditDB) (s : Nat) :
    get_data (ids.foldl (fun db i => mark_stage_finished db i s) db)
      = get_data db := by
  funext j
  unfold get_data
  rw [fold_mark_stored]

theorem get_pending_fold_mark_ne (ids : List Nat) (db : AuditDB) (s σ : Nat)
    (h : σ ≠ s) :
    get_pending_data (ids.foldl (fun db i => mark_stage_finished db i s) db) σ
      = get_pending_data db σ := by
  induction ids generalizing db with
  | nil => rfl
  | cons j rest ih => rw [List.foldl_cons, ih, get_pending_mark_ne _ _ _ _ h]

theorem mark_contains_mono (db : AuditDB) (i s j σ : Nat)
    (h : stage_mark_contains db.stage_finished j σ = true) :
    stage_mark_contains (mark_stage_finished db i s).stage_finished j σ = true := by
  show stage_mark_contains (db.stage_finished ++ [(i, s)]) j σ = true
  unfold stage_mark_contains at *
  rw [List.any_append, h, Bool.true_or]

theorem fold_mark_contains_mono (ids : List Nat) (db : AuditDB) (s j σ : Nat)
    (h : stage_mark_contains db.stage_finished j σ = true) :
    stage_mark_contains
      ((ids.foldl (fun db i => mark_stage_finished db i s) db)).stage_finished
      j σ = true := by
  induction ids generalizing db with
  | nil => exact h
  | cons k rest ih =>
    rw [List.foldl_cons]
    exact ih _ (mark_contains_mono _ _ _ _ _ h)

theorem mark_contains_self (db : AuditDB) (i s : Nat) :
    stage_mark_contains (mark_stage_finished db i s).stage_finished i s = true := by
  show stage_mark_contains (db.stage_finished ++ [(i, s)]) i s = true
  unfold stage_mark_contains
  rw [List.any_append]
  simp

theorem fold_mark_marks (ids : List Nat) (db : AuditDB) (s : Nat) :
    ∀ i ∈ ids,
      stage_mark_contains
        ((ids.foldl (fun db i => mark_stage_finished db i s) db)).stage_finished
        i s = true := by
  induction ids generalizing db with
  | nil => intro i hi; cases hi
  | cons j rest ih =>
    intro i hi
    rw [List.foldl_cons]
    rcases List.mem_cons.mp hi with rfl | hmem
    · exact fold_mark_contains_mono rest _ s i s (mark_contains_self db i s)
    · exact ih _ i hmem

theorem generate_reports_db (st : AuditState) (l : Except Unit Nat) :
    (generate_reports st l).1.db = st.db := by
  unfold generate_reports
  split
  · rfl
  · cases l <;> rfl

/-- The stage scan only adds per-stage finish marks, never removes one. -/
theorem scan_db_mono (pm : PluginManager)
    (ir : List DataItem → Nat → Bool) (l : Except Unit Nat) :
    ∀ (stages : List Nat) (st : AuditState) (j σ : Nat),
      stage_mark_contains st.db.stage_finished j σ = true →
      stage_mark_contains (scan_stages pm ir l stages st).1.db.stage_finished
        j σ = true := by
  intro stages
  induction stages with
  | nil =>
    intro st j σ h
    simp only [scan_stages]
    rw [generate_reports_db]
    exact h
  | cons stage rest ih =>
    intro st j σ h
    simp only [scan_stages]
    split
    · exact ih _ j σ h
    · split
      · exact h
      · exact ih _ j σ (fold_mark_contains_mono _ _ _ _ _ h)

/-- The stage scan of update_stage stops at the first listed stage whose
pending set is non-empty and accepted by some plugin: every earlier
listed stage was either empty or had all its pending items marked
finished there, the DATA message carries exactly that stage's pending
data, and the current stage is set to it. -/
theorem scan_stages_first_runnable (pm : PluginManager)
    (ir : List DataItem → Nat → Bool) (l : Except Unit Nat) :
    ∀ (pre : List Nat) (s : Nat) (post : List Nat) (st : AuditState),
      pre.Nodup →
      (∀ σ ∈ pre, σ ≠ s) →
      (∀ σ ∈ pre, get_pending_data st.db σ = []
        ∨ ir ((get_pending_data st.db σ).map (get_data st.db)) σ = false) →
      get_pending_data st.db s ≠ [] →
      ir ((get_pending_data st.db s).map (get_data st.db)) s = true →
      (scan_stages pm ir l (pre ++ s :: post) st).1.current_stage = s
      ∧ (scan_stages pm ir l (pre ++ s :: post) st).2
          = [AuditMsg.data_msg
              ((get_pending_data st.db s).map (get_data st.db))
              MessagePriority.medium]
      ∧ ∀ σ ∈ pre, ∀ i ∈ get_pending_data st.db σ,
          stage_mark_contains
            (scan_stages pm ir l (pre ++ s :: post) st).1.db.stage_finished
            i σ = true := by
  intro pre
  induction pre with
  | nil =>
    intro s post st _ _ _ hpend hrun
    have hie : (get_pending_data st.db s).isEmpty = false := by
      cases hq : get_pending_data st.db s with
      | nil => exact absurd hq hpend
      | cons a l2 => rfl
    rw [List.nil_append]
    simp only [scan_stages]
    rw [if_neg (by rw [hie]; simp), if_pos hrun]
    exact ⟨rfl, rfl, fun σ hσ => absurd hσ (List.not_mem_nil σ)⟩
  | cons σ0 pre2 ih =>
    intro s post st hnd hne hpend hp hr
    have hσne : σ0 ≠ s := hne σ0 (List.mem_cons_self σ0 pre2)
    have hnd2 : pre2.Nodup := (List.nodup_cons.mp hnd).2
    have hσnotin : σ0 ∉ pre2 := (List.nodup_cons.mp hnd).1
    rw [List.cons_append]
    by_cases hq : get_pending_data st.db σ0 = []
    · have hie : (get_pending_data st.db σ0).isEmpty = true := by
        rw [hq]; rfl
      simp only [scan_stages]
      rw [if_pos (by rw [hie])]
      have hrec := ih s post { st with current_stage := σ0 } hnd2
        (fun σ hσ => hne σ (List.mem_cons_of_mem σ0 hσ))
        (fun σ hσ => hpend σ (List.mem_cons_of_mem σ0 hσ)) hp hr
      refine ⟨hrec.1, hrec.2.1, ?_⟩
      intro σ hσ i hi
      rcases List.mem_cons.mp hσ with rfl | hmem
      · rw [hq] at hi; cases hi
      · exact hrec.2.2 σ hmem i hi
    · have hie : (get_pending_data st.db σ0).isEmpty = false := by
        cases hq2 : get_pending_data st.db σ0 with
        | nil => exact absurd hq2 hq
        | cons a l2 => rfl
      have hnr : ir ((get_pending_data st.db σ0).map (get_data st.db)) σ0
          = false := by
        rcases hpend σ0 (List.mem_cons_self σ0 pre2) with hemp | hfalse
        · exact absurd hemp hq
        · exact hfalse
      simp only [scan_stages]
      rw [if_neg (by rw [hie]; simp), if_neg (by rw [hnr]; simp)]
      set db1 := (get_pending_data st.db σ0).foldl
        (fun db i => mark_stage_finished db i σ0) st.db with hdb1
      have hpend1 : ∀ τ, τ ≠ σ0 →
          get_pending_data db1 τ = get_pending_data st.db τ := by
        intro τ hτ
        exact get_pending_fold_mark_ne _ _ _ _ hτ
      have hdata1 : get_data db1 = get_data st.db := get_data_fold_mark _ _ _
      have hrec := ih s post
        { st with current_stage := σ0, db := db1 } hnd2
        (fun σ hσ => hne σ (List.mem_cons_of_mem σ0 hσ))
        (by
          intro σ hσ
          have hσσ0 : σ ≠ σ0 := fun hh => hσnotin (hh ▸ hσ)
          show get_pending_data db1 σ = []
            ∨ ir ((get_pending_data db1 σ).map (get_data db1)) σ = false
          rw [hpend1 σ hσσ0, hdata1]
          exact hpend σ (List.mem_cons_of_mem σ0 hσ))
        (by
          show get_pending_data db1 s ≠ []
          rw [hpend1 s (fun hh => hσne hh.symm)]
          exact hp)
        (by
          show ir ((get_pending_data db1 s).map (get_data db1)) s = true
          rw [hpend1 s (fun hh => hσne hh.symm), hdata1]
          exact hr)
      refine ⟨hrec.1, ?_, ?_⟩
      · rw [hrec.2.1, hpend1 s (fun hh => hσne hh.symm), hdata1]
      · intro σ hσ i hi
        rcases List.mem_cons.mp hσ with rfl | hmem
        · refine scan_db_mono pm ir l _ _ i σ ?_
          show stage_mark_contains db1.stage_finished i σ = true
          exact fold_mark_marks _ _ _ i hi
        · have hσσ0 : σ ≠ σ0 := fun hh => hσnotin (hh ▸ hmem)
          refine (hrec.2.2 σ hmem i ?_)
          rw [hpend1 σ hσσ0]
          exact hi

/-- An item pending at every stage of a small audit. -/
def pending_item5 : DataItem := DataItem.mk 5 DataType.information 0 true []

/-- An audit state whose current stage is 2 while identity 5 is still
pending at stage 0. -/
def st_stage2 : AuditState := ⟨⟨[pending_item5], [], []⟩, 0, true, 0, 2, false⟩

/-- C5 counterexample: with the audit's current stage at 2 and identity
5 still pending at stage 0, update_stage does not begin its scan at the
current stage: it rescans from the minimum stage 0, emits the stage-0
pending batch and resets the current stage to 0. -/
theorem C5_scan_restarts_at_min_stage :
    st_stage2.current_stage = 2
    ∧ (update_stage pm_nonrecursive always_runnable (Except.ok 0)
        st_stage2).1.current_stage = 0
    ∧ (update_stage pm_nonrecursive always_runnable (Except.ok 0)
        st_stage2).2
      = [AuditMsg.data_msg [pending_item5] MessagePriority.medium] :=
  ⟨rfl, rfl, rfl⟩

/-- C5 amended: stage advancement runs exactly when an arriving ACK
brings the expecting_ack counter to zero; its scan over candidate stages
begins at the plugin manager's minimum stage (not at the audit's current
one) and proceeds up to max_stage, stopping at the first stage with a
non-empty pending set some plugin accepts, after marking every pending
item finished at each scanned stage that no registered plugin would
accept. -/
theorem C5_stage_advancement :
    (∀ (pm : PluginManager) (ir : List DataItem → Nat → Bool)
       (l : Except Unit Nat) (st : AuditState),
       ((acknowledge pm ir l st).2.2 = true ↔ st.expecting_ack = 1))
    ∧ (∀ (pm : PluginManager) (ir : List DataItem → Nat → Bool)
         (l : Except Unit Nat) (st : AuditState) (s : Nat),
        st.is_report_started = false →
        pm.min_stage ≤ s → s ≤ pm.max_stage →
        (∀ σ, pm.min_stage ≤ σ → σ < s →
          get_pending_data st.db σ = []
          ∨ ir ((get_pending_data st.db σ).map (get_data st.db)) σ = false) →
        get_pending_data st.db s ≠ [] →
        ir ((get_pending_data st.db s).map (get_data st.db)) s = true →
        (update_stage pm ir l st).1.current_stage = s
        ∧ (update_stage pm ir l st).2
            = [AuditMsg.data_msg
                ((get_pending_data st.db s).map (get_data st.db))
                MessagePriority.medium]
        ∧ ∀ σ i, pm.min_stage ≤ σ → σ < s → i ∈ get_pending_data st.db σ →
            stage_mark_contains
              (update_stage pm ir l st).1.db.stage_finished i σ = true) := by
  constructor
  · intro pm ir l st
    unfold acknowledge
    dsimp only
    split
    · rename_i hcond
      have hc2 : st.expecting_ack - 1 = 0 := hcond
      constructor
      · intro _; omega
      · intro _; rfl
    · rename_i hcond
      have hc2 : ¬(st.expecting_ack - 1 = 0) := hcond
      constructor
      · intro hfalse; cases hfalse
      · intro h1; exact absurd (by omega : st.expecting_ack - 1 = 0) hc2
  · intro pm ir l st s hrep hmin hmax hbefore hp hr
    have hsplit : stage_range pm
        = List.range' pm.min_stage (s - pm.min_stage)
          ++ s :: List.range' (s + 1) (pm.max_stage - s) := by
      unfold stage_range
      have e1 : pm.max_stage + 1 - pm.min_stage
          = (pm.max_stage + 1 - s) + (s - pm.min_stage) := by omega
      rw [e1, ← List.range'_append_1 pm.min_stage (s - pm.min_stage)
        (pm.max_stage + 1 - s)]
      have e2 : pm.min_stage + (s - pm.min_stage) = s := by omega
      rw [e2]
      have e3 : pm.max_stage + 1 - s = (pm.max_stage - s) + 1 := by omega
      rw [e3, List.range'_succ]
    have hmem : ∀ σ, σ ∈ List.range' pm.min_stage (s - pm.min_stage) ↔
        (pm.min_stage ≤ σ ∧ σ < s) := by
      intro σ
      rw [List.mem_range'_1]
      omega
    have hscan := scan_stages_first_runnable pm ir l
      (List.range' pm.min_stage (s - pm.min_stage)) s
      (List.range' (s + 1) (pm.max_stage - s)) st
      (List.nodup_range' _ _)
      (fun σ hσ => by
        have := (hmem σ).mp hσ
        omega)
      (fun σ hσ => by
        have := (hmem σ).mp hσ
        exact hbefore σ this.1 this.2)
      hp hr
    have hupd : update_stage pm ir l st
        = scan_stages pm ir l (stage_range pm) st := by
      unfold update_stage
      rw [if_neg (by rw [hrep]; simp)]
    rw [hupd, hsplit]
    refine ⟨hscan.1, hscan.2.1, ?_⟩
    intro σ i hσ1 hσ2 hi
    exact hscan.2.2 σ ((hmem σ).mpr ⟨hσ1, hσ2⟩) i hi

/-- C5 witness: the stage-advancement characterization applied at a
concrete state (pending identity 5, accepted at stage 0), and the
ACK-trigger equivalence applied at a state with one outstanding ACK. -/
theorem C5_stage_advancement_witness :
    (update_stage pm_nonrecursive always_runnable (Except.ok 0)
        st_stage2).1.current_stage = 0
    ∧ (acknowledge pm_nonrecursive always_runnable (Except.ok 0)
        ⟨empty_db, 0, true, 1, 0, false⟩).2.2 = true :=
  ⟨(C5_stage_advancement.2 pm_nonrecursive always_runnable (Except.ok 0)
      st_stage2 0 rfl (Nat.le_refl 0) (by decide)
      (fun σ _ hlt => absurd hlt (Nat.not_lt_zero σ))
      (by decide) rfl).1,
    (C5_stage_advancement.1 pm_nonrecursive always_runnable (Except.ok 0)
      ⟨empty_db, 0, true, 1, 0, false⟩).mpr rfl⟩

end Golismero
